import Mathlib

/-!
Verification of `ConvertAll.py`, a utility that batch-converts the
PowerPoint files of a folder to PDF with one of two backends: Microsoft
PowerPoint through COM on `win32`, or headless LibreOffice elsewhere.

The script is embedded shallowly: every operating-system interaction
(platform, `argv`, the listing of the input folder, the outcome of
`subprocess.run`, the availability of `comtypes`, per-file COM failures,
`os.path.abspath` / `os.path.join` / `os.path.isfile` / `os.path.isdir`)
is a field of an explicit environment `Env`, and each function of the
script becomes a pure Lean function from `Env` to its Python return value
paired with the ordered trace of the side effects it performs
(`os.makedirs`, `subprocess.run`, `print`, the COM calls).  File names are
`List Char`, exactly the characters of the Python string.
-/

namespace ConvertAll

/-- The characters of a string literal, used to write file names. -/
def str (s : String) : List Char := s.data

/-- Python `s.lower()` on a file name.  The extension comparison in the
script only involves ASCII characters, where `Char.toLower` and Python
`str.lower` agree. -/
def lowerName (s : List Char) : List Char := s.map Char.toLower

/-- The extension test of the script, `f.lower().endswith((".ppt", ".pptx"))`
(lines 40-42, 65-67, 117-120 of `ConvertAll.py`). -/
def matchesPpt (f : List Char) : Bool :=
  (str ".ppt").isSuffixOf (lowerName f) || (str ".pptx").isSuffixOf (lowerName f)

/-- One entry of `os.listdir(input_folder)`: its name and whether
`os.path.isfile(os.path.join(input_folder, name))` holds. -/
structure Entry where
  name : List Char
  isFile : Bool
deriving DecidableEq

/-- The file-discovery comprehension, identical at its three occurrences
(lines 41-42, 64-67 and 119-120):
`[f for f in os.listdir(input_folder) if os.path.isfile(os.path.join(input_folder, f)) and f.lower().endswith((".ppt", ".pptx"))]`. -/
def discover (entries : List Entry) : List (List Char) :=
  (entries.filter (fun e => e.isFile && matchesPpt e.name)).map Entry.name

/-- `str.rfind('.')` on a name: the index of its last dot. -/
def rfindDot : List Char → Option Nat
  | [] => none
  | c :: cs =>
    match rfindDot cs with
    | some i => some (i + 1)
    | none => if c = '.' then some 0 else none

/-- `os.path.splitext` on a bare file name (the names here come from
`os.listdir`, so they contain no directory separator): split at the last
dot, except that a name whose characters before that dot are all dots
(a leading-dot name such as `.pptx`) is not split.  This mirrors the
CPython `genericpath._splitext` loop. -/
def splitext (f : List Char) : List Char × List Char :=
  match rfindDot f with
  | none => (f, [])
  | some i =>
    if (f.take i).any (fun c => c ≠ '.') then (f.take i, f.drop i)
    else (f, [])

/-- Line 78 of the script:
`output_name = os.path.splitext(input_file_name)[0] + ".pdf"`. -/
def output_name (f : List Char) : List Char := (splitext f).1 ++ str ".pdf"

/-- Follows the spec's words, for comparison with `output_name`:
"output PDF takes the input file's base name with extension replaced by
`.pdf`", reading "extension" as the matched `.ppt`/`.pptx` suffix that made
discovery select the file. -/
def spec_output_name (f : List Char) : List Char :=
  if (str ".pptx").isSuffixOf (lowerName f) then
    f.take (f.length - 5) ++ str ".pdf"
  else if (str ".ppt").isSuffixOf (lowerName f) then
    f.take (f.length - 4) ++ str ".pdf"
  else f ++ str ".pdf"

/-- The three exception types caught around `subprocess.run` (line 51). -/
inductive RunExc where
  | calledProcessError
  | fileNotFoundError
  | timeoutExpired
deriving DecidableEq

/-- The one exception `main` catches from the COM backend (line 112). -/
inductive PyExc where
  | importError
deriving DecidableEq

/-- An observable side effect of the script, in program order. -/
inductive Effect where
  /-- `os.makedirs(path, exist_ok=True)`: create the folder recursively,
  without error when it already exists. -/
  | makedirs (path : String)
  /-- `subprocess.run(cmd, check=True, capture_output=True, timeout=seconds)`:
  launch the converter child process. -/
  | run (cmd : List String) (timeoutSeconds : Nat)
  /-- A line written to standard output. -/
  | print (msg : String)
  /-- `comtypes.client.CreateObject(progid)`. -/
  | createObject (progid : String)
  /-- `powerpoint.Presentations.Open(path)`. -/
  | comOpen (path : String)
  /-- `slides.SaveAs(path, 32)`. -/
  | comSaveAs (path : String)
  /-- `slides.Close()`. -/
  | comClose
  /-- `powerpoint.Quit()` in the `finally` block. -/
  | comQuit
deriving DecidableEq

/-- The environment a run of the script observes. -/
structure Env where
  /-- `sys.platform`. -/
  platform : String
  /-- `sys.argv[1:]`, the arguments after the script name. -/
  argv : List String
  /-- `os.path.isdir`. -/
  isdir : String → Bool
  /-- `os.listdir(input_folder)` together with the per-entry `isfile` test. -/
  entries : List Entry
  /-- `os.path.abspath`. -/
  abspath : String → String
  /-- `os.path.join` of a folder and a file name. -/
  join : String → List Char → String
  /-- `os.path.isfile`, applied to the soffice candidate paths. -/
  isfile : String → Bool
  /-- `shutil.which("soffice")`. -/
  whichSoffice : Option String
  /-- `shutil.which("libreoffice")`. -/
  whichLibreoffice : Option String
  /-- The outcome of the single `subprocess.run` call: `none` for success,
  otherwise the exception it raises. -/
  runExc : Option RunExc
  /-- Whether `import comtypes.client` succeeds. -/
  comtypesAvailable : Bool
  /-- Per-file COM conversion outcome: `none` for success, otherwise the
  message of the exception raised while converting that file. -/
  comFail : List Char → Option String

/-- The candidate soffice locations (lines 23-27): the fixed macOS install
path and the two `shutil.which` results. -/
def candidates (env : Env) : List (Option String) :=
  [some "/Applications/LibreOffice.app/Contents/MacOS/soffice",
   env.whichSoffice, env.whichLibreoffice]

/-- The search loop of lines 28-32: the first candidate `c` with
`c and os.path.isfile(c)`. -/
def first_candidate (isfile : String → Bool) : List (Option String) → Option String
  | [] => none
  | none :: rest => first_candidate isfile rest
  | some c :: rest => if isfile c then some c else first_candidate isfile rest

/-- The executable the script will use, or `none` (lines 23-34). -/
def find_soffice (env : Env) : Option String :=
  first_candidate env.isfile (candidates env)

/-- The outcome of `subprocess.run(cmd, check=True, capture_output=True,
timeout=300)` as the environment fixes it. -/
def subprocess_run (env : Env) : Except RunExc Unit :=
  match env.runExc with
  | none => Except.ok ()
  | some e => Except.error e

/-- `convert_with_libreoffice(input_folder, output_folder)` (lines 20-53).
The result is `Except.ok b` for a normal return of the Python boolean `b`;
an `Except.error` would be an exception escaping to the caller.  The
`try`/`except` of lines 49-52 maps each of the three caught exception
types to `return False`. -/
def convert_with_libreoffice (env : Env) (input_folder output_folder : String) :
    Except RunExc Bool × List Effect :=
  match find_soffice env with
  | none => (Except.ok false, [])
  | some soffice =>
    let input_abs := env.abspath input_folder
    let output_abs := env.abspath output_folder
    let files := discover env.entries
    if files.isEmpty then
      (Except.ok true, [Effect.makedirs output_abs])
    else
      let cmd := [soffice, "--headless", "--convert-to", "pdf", "--outdir", output_abs]
                   ++ files.map (fun f => env.join input_abs f)
      let result : Except RunExc Bool :=
        match subprocess_run env with
        | Except.ok _ => Except.ok true
        | Except.error RunExc.calledProcessError => Except.ok false
        | Except.error RunExc.fileNotFoundError => Except.ok false
        | Except.error RunExc.timeoutExpired => Except.ok false
      (result, [Effect.makedirs output_abs, Effect.run cmd 300])

/-- The body of the per-file loop of lines 76-86 for one file.  The
per-file `try`/`except Exception` catches any failure of the
Open/SaveAs/Close sequence; a failure is modelled as arising at the Open
call, and in either case the loop prints its line and moves on. -/
def com_one (env : Env) (input_abs output_abs : String) (f : List Char) : List Effect :=
  let input_path := env.join input_abs f
  let out := output_name f
  let output_path := env.join output_abs out
  match env.comFail f with
  | none =>
      [Effect.comOpen input_path, Effect.comSaveAs output_path, Effect.comClose,
       Effect.print ("Converted: " ++ String.mk f ++ " -> " ++ String.mk out)]
  | some msg =>
      [Effect.comOpen input_path,
       Effect.print ("Error converting " ++ String.mk f ++ " : " ++ msg)]

/-- `convert_with_powerpoint_com(input_folder, output_folder)` (lines
56-92).  `import comtypes.client` raises `ImportError` when the bridge is
missing, before anything else happens.  Otherwise the PowerPoint instance
is created once, every discovered file is processed by the loop, and the
`finally` block calls `Quit` on the instance. -/
def convert_with_powerpoint_com (env : Env) (input_folder output_folder : String) :
    Except PyExc Unit × List Effect :=
  if env.comtypesAvailable then
    let input_abs := env.abspath input_folder
    let output_abs := env.abspath output_folder
    let files := discover env.entries
    if files.isEmpty then
      (Except.ok (), [Effect.makedirs output_abs,
                      Effect.print ("No PPT/PPTX files found in " ++ input_abs)])
    else
      (Except.ok (),
        [Effect.makedirs output_abs, Effect.createObject "Powerpoint.Application"]
          ++ files.flatMap (com_one env input_abs output_abs)
          ++ [Effect.comQuit])
  else (Except.error PyExc.importError, [])

/-- Line 102: `output_folder = sys.argv[2] if len(sys.argv) > 2 else
input_folder`. -/
def select_output_folder (input_folder : String) : List String → String
  | [] => input_folder
  | o :: _ => o

/-- The two usage lines printed when no argument is given (lines 97-98). -/
def usage_effects : List Effect :=
  [Effect.print "Usage: python ConvertAll.py input-folder [output-folder]",
   Effect.print "Example: python ConvertAll.py ."]

/-- `main()` (lines 95-129): the process exit status (0 for a normal
return, 1 for `sys.exit(1)`; an unhandled exception also terminates the
interpreter with status 1) together with the effect trace. -/
def main (env : Env) : Nat × List Effect :=
  match env.argv with
  | [] => (1, usage_effects)
  | input_folder :: rest =>
    let output_folder := select_output_folder input_folder rest
    if env.isdir input_folder then
      if env.platform = "win32" then
        match convert_with_powerpoint_com env input_folder output_folder with
        | (Except.ok _, effs) => (0, effs)
        | (Except.error PyExc.importError, effs) =>
            (1, effs ++
              [Effect.print "comtypes not installed. Install with: pip install comtypes"])
      else
        let root := env.abspath input_folder
        let files := discover env.entries
        if files.isEmpty then
          (0, [Effect.print ("No PPT/PPTX files found in " ++ root)])
        else
          match convert_with_libreoffice env input_folder output_folder with
          | (Except.ok true, effs) =>
              (0, effs ++ [Effect.print ("Converted " ++ toString files.length ++
                " file(s) with LibreOffice. Output folder: " ++
                env.abspath output_folder)])
          | (Except.ok false, effs) =>
              (1, effs ++
                [Effect.print
                  "LibreOffice not found. On macOS install with: brew install --cask libreoffice",
                 Effect.print
                  "On Windows run this script with PowerPoint installed and comtypes: pip install comtypes"])
          | (Except.error _, effs) => (1, effs)
    else
      (1, [Effect.print ("Error: input folder does not exist: " ++ input_folder)])

end ConvertAll

namespace ConvertAll

/-- A Linux environment whose `subprocess.run` times out. -/
def envTimeout : Env :=
  { platform := "linux", argv := ["slides"],
    isdir := fun _ => true,
    entries := [⟨str "a.ppt", true⟩],
    abspath := fun s => s,
    join := fun d f => d ++ "/" ++ String.mk f,
    isfile := fun _ => true,
    whichSoffice := some "/usr/bin/soffice",
    whichLibreoffice := none,
    runExc := some RunExc.timeoutExpired,
    comtypesAvailable := false,
    comFail := fun _ => none }

/-- A Linux environment where soffice is found and the conversion succeeds. -/
def envLibre : Env :=
  { platform := "linux", argv := ["slides", "pdfs"],
    isdir := fun _ => true,
    entries := [⟨str "a.PPTX", true⟩, ⟨str "b.ppt", true⟩,
                ⟨str "notes.txt", true⟩, ⟨str "sub.pptx", false⟩],
    abspath := fun s => s,
    join := fun d f => d ++ "/" ++ String.mk f,
    isfile := fun p => p == "/usr/bin/soffice",
    whichSoffice := some "/usr/bin/soffice",
    whichLibreoffice := none,
    runExc := none,
    comtypesAvailable := false,
    comFail := fun _ => none }

/-- A Linux environment with no soffice anywhere. -/
def envNoSoffice : Env :=
  { platform := "linux", argv := ["slides"],
    isdir := fun _ => true,
    entries := [⟨str "a.ppt", true⟩],
    abspath := fun s => s,
    join := fun d f => d ++ "/" ++ String.mk f,
    isfile := fun _ => false,
    whichSoffice := none,
    whichLibreoffice := none,
    runExc := none,
    comtypesAvailable := false,
    comFail := fun _ => none }

/-- An environment whose input folder does not exist. -/
def envNoDir : Env :=
  { platform := "linux", argv := ["missing"],
    isdir := fun _ => false,
    entries := [],
    abspath := fun s => s,
    join := fun d f => d ++ "/" ++ String.mk f,
    isfile := fun _ => false,
    whichSoffice := none,
    whichLibreoffice := none,
    runExc := none,
    comtypesAvailable := false,
    comFail := fun _ => none }

/-- A win32 environment with an empty input folder and comtypes missing. -/
def envWinNoComtypes : Env :=
  { platform := "win32", argv := ["slides"],
    isdir := fun _ => true,
    entries := [],
    abspath := fun s => s,
    join := fun d f => d ++ "\\" ++ String.mk f,
    isfile := fun _ => false,
    whichSoffice := none,
    whichLibreoffice := none,
    runExc := none,
    comtypesAvailable := false,
    comFail := fun _ => none }

/-- A win32 environment with comtypes present and only a non-matching file. -/
def envWinEmpty : Env :=
  { platform := "win32", argv := ["slides"],
    isdir := fun _ => true,
    entries := [⟨str "notes.txt", true⟩],
    abspath := fun s => s,
    join := fun d f => d ++ "\\" ++ String.mk f,
    isfile := fun _ => false,
    whichSoffice := none,
    whichLibreoffice := none,
    runExc := none,
    comtypesAvailable := true,
    comFail := fun _ => none }

/-- A win32 environment with comtypes present, one file failing in COM and
one converting. -/
def envCom : Env :=
  { platform := "win32", argv := ["slides"],
    isdir := fun _ => true,
    entries := [⟨str "bad.ppt", true⟩, ⟨str "good.pptx", true⟩],
    abspath := fun s => s,
    join := fun d f => d ++ "\\" ++ String.mk f,
    isfile := fun _ => false,
    whichSoffice := none,
    whichLibreoffice := none,
    runExc := none,
    comtypesAvailable := true,
    comFail := fun f => if f = str "bad.ppt" then some "COM error" else none }

/-- An environment where both backends are available. -/
def envBoth : Env :=
  { platform := "win32", argv := ["slides"],
    isdir := fun _ => true,
    entries := [⟨str "deck.pptx", true⟩],
    abspath := fun s => s,
    join := fun d f => d ++ "/" ++ String.mk f,
    isfile := fun _ => true,
    whichSoffice := none,
    whichLibreoffice := none,
    runExc := none,
    comtypesAvailable := true,
    comFail := fun _ => none }

/-! ## Helper lemmas -/

/-- Whether an effect is a `subprocess.run` launch. -/
def isRunEffect : Effect → Bool
  | Effect.run _ _ => true
  | _ => false

/-- Whether an effect is a `comtypes.client.CreateObject` call. -/
def isCreateObjectEffect : Effect → Bool
  | Effect.createObject _ => true
  | _ => false

theorem isSuffixOf_eq_decide (l₁ l₂ : List Char) :
    l₁.isSuffixOf l₂ = decide (l₁ <:+ l₂) := by
  by_cases h : l₁ <:+ l₂
  · simp [h, List.isSuffixOf_iff_suffix]
  · rw [decide_eq_false h]
    exact Bool.eq_false_iff.mpr fun ht => h (List.isSuffixOf_iff_suffix.mp ht)

theorem run_not_in_com_one (env : Env) (a b : String) (f : List Char)
    (cmd : List String) (t : Nat) : Effect.run cmd t ∉ com_one env a b f := by
  unfold com_one
  cases h : env.comFail f <;> simp [h]

theorem createObject_not_in_com_one (env : Env) (a b : String) (f : List Char)
    (p : String) : Effect.createObject p ∉ com_one env a b f := by
  unfold com_one
  cases h : env.comFail f <;> simp [h]

theorem no_run_in_com (env : Env) (i o : String) (cmd : List String) (t : Nat) :
    Effect.run cmd t ∉ (convert_with_powerpoint_com env i o).2 := by
  unfold convert_with_powerpoint_com
  cases hc : env.comtypesAvailable
  · simp
  · cases hne : (discover env.entries).isEmpty <;>
      simp [hne, List.mem_append, List.mem_flatMap]
    intro f hf
    exact run_not_in_com_one env (env.abspath i) (env.abspath o) f cmd t

theorem no_createObject_in_libre (env : Env) (i o : String) (p : String) :
    Effect.createObject p ∉ (convert_with_libreoffice env i o).2 := by
  unfold convert_with_libreoffice
  cases hs : find_soffice env
  · simp
  · cases hne : (discover env.entries).isEmpty <;> simp [hne]

end ConvertAll

namespace ConvertAll

/-! ## The claims -/

/-- Claim C1: file discovery selects exactly the directory entries that are
regular files directly inside the folder whose name, compared
case-insensitively, ends with `.ppt` or `.pptx`: a name is selected iff it
is the name of such an entry, and the number of selected names equals the
number of matching entries, whatever the case of the names. -/
theorem discovery_selects_exactly_matching (entries : List Entry) :
    (∀ f : List Char, f ∈ discover entries ↔
      ∃ e ∈ entries, e.name = f ∧ e.isFile = true ∧
        (str ".ppt" <:+ lowerName f ∨ str ".pptx" <:+ lowerName f)) ∧
    (discover entries).length =
      (entries.filter (fun e => e.isFile &&
        (decide (str ".ppt" <:+ lowerName e.name) ||
         decide (str ".pptx" <:+ lowerName e.name)))).length := by
  constructor
  · intro f
    simp only [discover, List.mem_map, List.mem_filter, Bool.and_eq_true,
      matchesPpt, Bool.or_eq_true, List.isSuffixOf_iff_suffix]
    constructor
    · rintro ⟨e, ⟨he, hfile, hsuf⟩, rfl⟩
      exact ⟨e, he, rfl, hfile, hsuf⟩
    · rintro ⟨e, he, rfl, hfile, hsuf⟩
      exact ⟨e, ⟨he, hfile, hsuf⟩, rfl⟩
  · rw [discover, List.length_map]
    congr 1
    apply List.filter_congr
    intro e _
    rw [matchesPpt, isSuffixOf_eq_decide, isSuffixOf_eq_decide]

/-- Witness for C1 at the spec's own scenario. -/
theorem discovery_selects_exactly_matching_witness :
    str "a.PPTX" ∈ discover
      [⟨str "a.PPTX", true⟩, ⟨str "b.ppt", true⟩, ⟨str "notes.txt", true⟩] :=
  ((discovery_selects_exactly_matching _).1 _).mpr
    ⟨⟨str "a.PPTX", true⟩, by decide, rfl, rfl, by decide⟩

/-- Claim C2: `convert_with_libreoffice` never lets an exception escape to
the caller, and returns `False` both when the executable search fails and
when the invocation fails with `CalledProcessError` (non-zero exit),
`FileNotFoundError` (executable missing at invocation time) or
`TimeoutExpired` (300-second timeout), so the caller cannot tell
unavailability from invocation failure. -/
theorem libreoffice_failure_modes (env : Env) (i o : String) :
    (∃ b, (convert_with_libreoffice env i o).1 = Except.ok b) ∧
    (find_soffice env = none →
      (convert_with_libreoffice env i o).1 = Except.ok false) ∧
    (∀ e, env.runExc = some e → (discover env.entries).isEmpty = false →
      (convert_with_libreoffice env i o).1 = Except.ok false) := by
  refine ⟨?_, ?_, ?_⟩
  · unfold convert_with_libreoffice
    cases hs : find_soffice env
    · exact ⟨false, rfl⟩
    · cases hne : (discover env.entries).isEmpty
      · cases he : env.runExc with
        | none => exact ⟨true, by simp [hne, subprocess_run, he]⟩
        | some e => cases e <;> exact ⟨false, by simp [hne, subprocess_run, he]⟩
      · exact ⟨true, by simp [hne]⟩
  · intro hs
    simp [convert_with_libreoffice, hs]
  · intro e he hne
    unfold convert_with_libreoffice
    cases hs : find_soffice env
    · rfl
    · cases e <;> simp [hne, subprocess_run, he]

/-- Witness for C2: a timed-out invocation over one discovered file. -/
theorem libreoffice_failure_modes_witness :
    (convert_with_libreoffice envTimeout "slides" "slides").1 = Except.ok false :=
  (libreoffice_failure_modes envTimeout "slides" "slides").2.2
    RunExc.timeoutExpired rfl (by decide)

/-- Claim C6: when the converter is found and the discovered list is
non-empty, exactly one child process is launched, in headless batch
convert-to-pdf mode with the `--outdir` flag and the 300-second timeout,
and its command line carries the joined full path of every discovered
file. -/
theorem libreoffice_single_invocation (env : Env) (i o s : String)
    (hs : find_soffice env = some s)
    (hne : (discover env.entries).isEmpty = false) :
    (convert_with_libreoffice env i o).2.filter isRunEffect =
      [Effect.run ([s, "--headless", "--convert-to", "pdf", "--outdir",
          env.abspath o]
        ++ (discover env.entries).map (fun f => env.join (env.abspath i) f))
        300] := by
  simp [convert_with_libreoffice, hs, hne, List.filter, isRunEffect]

/-- Witness for C6: the one launch over two discovered files. -/
theorem libreoffice_single_invocation_witness :
    (convert_with_libreoffice envLibre "slides" "pdfs").2.filter isRunEffect =
      [Effect.run (["/usr/bin/soffice", "--headless", "--convert-to", "pdf",
          "--outdir", envLibre.abspath "pdfs"]
        ++ (discover envLibre.entries).map
            (fun f => envLibre.join (envLibre.abspath "slides") f)) 300] :=
  libreoffice_single_invocation envLibre "slides" "pdfs" "/usr/bin/soffice"
    (by decide) (by decide)

/-- Claim C9: when the executable search comes up empty,
`convert_with_libreoffice` returns `False` with an empty effect trace — in
particular the output folder is not created, the search preceding the
`makedirs` call. -/
theorem no_soffice_no_mutation (env : Env) (i o : String)
    (h : find_soffice env = none) :
    convert_with_libreoffice env i o = (Except.ok false, []) ∧
    (∀ p, Effect.makedirs p ∉ (convert_with_libreoffice env i o).2) := by
  have h1 : convert_with_libreoffice env i o = (Except.ok false, []) := by
    simp [convert_with_libreoffice, h]
  exact ⟨h1, by simp [h1]⟩

/-- Witness for C9: no candidate passes the isfile test. -/
theorem no_soffice_no_mutation_witness :
    convert_with_libreoffice envNoSoffice "slides" "slides" =
      (Except.ok false, []) :=
  (no_soffice_no_mutation envNoSoffice "slides" "slides" (by decide)).1

/-- Claim C10: a regular file named exactly `.pptx` passes the
case-insensitive suffix test and is discovered, and the COM backend's
output name for it appends `.pdf` (yielding `.pptx.pdf`) instead of
replacing the extension as the naming rule prescribes. -/
theorem hidden_name_selected_and_appended :
    discover [⟨str ".pptx", true⟩] = [str ".pptx"] ∧
    matchesPpt (str ".pptx") = true ∧
    output_name (str ".pptx") = str ".pptx" ++ str ".pdf" ∧
    output_name (str ".pptx") ≠ spec_output_name (str ".pptx") := by
  decide

/-- Claim C8 counterexample: for the discovered file named `.pptx` the code
produces `.pptx.pdf`, not the `.pdf` that "base name with its extension
replaced by `.pdf`" prescribes for a name that is all extension. -/
theorem replace_extension_counterexample :
    output_name (str ".pptx") = str ".pptx.pdf" ∧
    spec_output_name (str ".pptx") = str ".pdf" ∧
    output_name (str ".pptx") ≠ spec_output_name (str ".pptx") := by
  decide

end ConvertAll

namespace ConvertAll

/-- Claim C5: with an input path that is not an existing directory, `main`
prints the error line and exits with code 1, and its trace holds no
filesystem mutation — in particular no folder creation. -/
theorem missing_input_folder (env : Env) (i : String) (rest : List String)
    (hargv : env.argv = i :: rest) (hdir : env.isdir i = false) :
    (main env).1 = 1 ∧
    (main env).2 = [Effect.print ("Error: input folder does not exist: " ++ i)] ∧
    (∀ p, Effect.makedirs p ∉ (main env).2) := by
  have h2 : main env =
      (1, [Effect.print ("Error: input folder does not exist: " ++ i)]) := by
    simp [main, hargv, hdir]
  refine ⟨by rw [h2], by rw [h2], ?_⟩
  intro p
  rw [h2]
  simp

/-- Witness for C5 at a concrete environment. -/
theorem missing_input_folder_witness :
    (main envNoDir).1 = 1 ∧
    (main envNoDir).2 =
      [Effect.print ("Error: input folder does not exist: " ++ "missing")] :=
  ⟨(missing_input_folder envNoDir "missing" [] rfl rfl).1,
   (missing_input_folder envNoDir "missing" [] rfl rfl).2.1⟩

/-- Claim C4 counterexample: on win32 with the comtypes bridge missing, a
run over an existing, empty input folder exits with code 1, not 0: the
`import comtypes.client` at the top of the COM backend raises before the
empty file list is noticed, and `main` maps the ImportError to
`sys.exit(1)`. -/
theorem empty_folder_exit_counterexample :
    envWinNoComtypes.isdir "slides" = true ∧
    envWinNoComtypes.entries = [] ∧
    (main envWinNoComtypes).1 = 1 := by
  decide

/-- Claim C4 amended: an existing input folder with no matching file yields
no converter invocation — no child process is launched and no COM
application object is created — and, provided that on win32 the comtypes
bridge loads, the exit code is 0.  (On win32 with comtypes missing the
ImportError path exits 1 even though the folder holds nothing to
convert.) -/
theorem empty_folder_no_conversion (env : Env) (i : String) (rest : List String)
    (hargv : env.argv = i :: rest) (hdir : env.isdir i = true)
    (hempty : discover env.entries = [])
    (hcom : env.platform = "win32" → env.comtypesAvailable = true) :
    (main env).1 = 0 ∧
    (∀ cmd t, Effect.run cmd t ∉ (main env).2) ∧
    (∀ p, Effect.createObject p ∉ (main env).2) := by
  have hemp : (discover env.entries).isEmpty = true := by
    rw [hempty]; rfl
  by_cases hplat : env.platform = "win32"
  · have hc := hcom hplat
    have hmain : main env =
        (0, [Effect.makedirs (env.abspath (select_output_folder i rest)),
             Effect.print ("No PPT/PPTX files found in " ++ env.abspath i)]) := by
      simp [main, hargv, hdir, hplat, convert_with_powerpoint_com, hc, hemp]
    refine ⟨by rw [hmain], ?_, ?_⟩
    · intro cmd t
      rw [hmain]
      simp
    · intro p
      rw [hmain]
      simp
  · have hmain : main env =
        (0, [Effect.print ("No PPT/PPTX files found in " ++ env.abspath i)]) := by
      simp [main, hargv, hdir, hplat, hemp]
    refine ⟨by rw [hmain], ?_, ?_⟩
    · intro cmd t
      rw [hmain]
      simp
    · intro p
      rw [hmain]
      simp

/-- Witness for C4 as amended: win32, comtypes present, one non-matching
file. -/
theorem empty_folder_no_conversion_witness :
    (main envWinEmpty).1 = 0 :=
  (empty_folder_no_conversion envWinEmpty "slides" [] rfl rfl (by decide)
    (fun _ => rfl)).1

end ConvertAll

namespace ConvertAll

theorem com_ok_of_comtypes (env : Env) (i o : String)
    (hc : env.comtypesAvailable = true) :
    (convert_with_powerpoint_com env i o).1 = Except.ok () := by
  cases hne : (discover env.entries).isEmpty <;>
    simp [convert_with_powerpoint_com, hc, hne]

/-- Claim C7: in the COM backend the application object is created at most
once per batch; when files were discovered it is created exactly once,
`Quit` is the final effect of the batch whatever the per-file outcomes,
every discovered file gets its `Presentations.Open` call even when another
file fails, and a failing file gets the error line carrying its name and
error printed. -/
theorem com_per_file_isolation (env : Env) (i o : String)
    (hc : env.comtypesAvailable = true) :
    ((convert_with_powerpoint_com env i o).2.countP isCreateObjectEffect ≤ 1) ∧
    ((discover env.entries).isEmpty = false →
      ((convert_with_powerpoint_com env i o).2.countP isCreateObjectEffect = 1) ∧
      ((convert_with_powerpoint_com env i o).2.getLast? = some Effect.comQuit) ∧
      (∀ f ∈ discover env.entries,
        Effect.comOpen (env.join (env.abspath i) f)
          ∈ (convert_with_powerpoint_com env i o).2 ∧
        ∀ msg, env.comFail f = some msg →
          Effect.print ("Error converting " ++ String.mk f ++ " : " ++ msg)
            ∈ (convert_with_powerpoint_com env i o).2)) := by
  cases hne : (discover env.entries).isEmpty with
  | true =>
    have htr : (convert_with_powerpoint_com env i o).2 =
        [Effect.makedirs (env.abspath o),
         Effect.print ("No PPT/PPTX files found in " ++ env.abspath i)] := by
      simp [convert_with_powerpoint_com, hc, hne]
    refine ⟨?_, fun h => Bool.noConfusion h⟩
    rw [htr]
    simp [List.countP_cons, isCreateObjectEffect]
  | false =>
    have htr : (convert_with_powerpoint_com env i o).2 =
        [Effect.makedirs (env.abspath o),
         Effect.createObject "Powerpoint.Application"]
          ++ (discover env.entries).flatMap
              (com_one env (env.abspath i) (env.abspath o))
          ++ [Effect.comQuit] := by
      simp [convert_with_powerpoint_com, hc, hne]
    have hflat : ((discover env.entries).flatMap
        (com_one env (env.abspath i) (env.abspath o))).countP
          isCreateObjectEffect = 0 := by
      rw [List.countP_eq_zero]
      intro e he hce
      rw [List.mem_flatMap] at he
      obtain ⟨f, hf, hef⟩ := he
      cases e with
      | createObject p => exact createObject_not_in_com_one env _ _ f p hef
      | makedirs p => simp [isCreateObjectEffect] at hce
      | run c t => simp [isCreateObjectEffect] at hce
      | print m => simp [isCreateObjectEffect] at hce
      | comOpen p => simp [isCreateObjectEffect] at hce
      | comSaveAs p => simp [isCreateObjectEffect] at hce
      | comClose => simp [isCreateObjectEffect] at hce
      | comQuit => simp [isCreateObjectEffect] at hce
    refine ⟨?_, fun _ => ⟨?_, ?_, ?_⟩⟩
    · rw [htr]
      simp [List.countP_append, List.countP_cons, isCreateObjectEffect, hflat]
    · rw [htr]
      simp [List.countP_append, List.countP_cons, isCreateObjectEffect, hflat]
    · rw [htr, List.getLast?_concat]
    · intro f hf
      constructor
      · rw [htr]
        simp only [List.append_assoc, List.mem_append, List.mem_flatMap]
        refine Or.inr (Or.inl ⟨f, hf, ?_⟩)
        unfold com_one
        cases hcf : env.comFail f <;> simp [hcf]
      · intro msg hmsg
        rw [htr]
        simp only [List.append_assoc, List.mem_append, List.mem_flatMap]
        refine Or.inr (Or.inl ⟨f, hf, ?_⟩)
        unfold com_one
        rw [hmsg]
        simp

/-- Witness for C7: with `bad.ppt` failing, `good.pptx` is still opened. -/
theorem com_per_file_isolation_witness :
    Effect.comOpen (envCom.join (envCom.abspath "slides") (str "good.pptx"))
      ∈ (convert_with_powerpoint_com envCom "slides" "slides").2 :=
  (((com_per_file_isolation envCom "slides" "slides" rfl).2 (by decide)).2.2
    (str "good.pptx") (by decide)).1

theorem rfindDot_eq_none (s : List Char) (h : '.' ∉ s) : rfindDot s = none := by
  induction s with
  | nil => rfl
  | cons c cs ih =>
    rw [List.mem_cons, not_or] at h
    unfold rfindDot
    rw [ih h.2]
    have hc : ¬ c = '.' := fun hcc => h.1 hcc.symm
    simp [hc]

theorem rfindDot_append_dotfree (b tail : List Char) (h : '.' ∉ tail) :
    rfindDot (b ++ '.' :: tail) = some b.length := by
  induction b with
  | nil => simp [rfindDot, rfindDot_eq_none tail h]
  | cons c cs ih =>
    rw [List.cons_append]
    unfold rfindDot
    rw [ih]
    rfl

theorem output_name_replaces_ext (b tail : List Char)
    (hb : b.any (fun c => c ≠ '.') = true) (ht : '.' ∉ tail) :
    output_name (b ++ '.' :: tail) = b ++ str ".pdf" := by
  have hex : ∃ x ∈ b, ¬x = '.' := by simpa using hb
  simp [output_name, splitext, rfindDot_append_dotfree b tail ht,
    List.take_left, hb, hex]

end ConvertAll

namespace ConvertAll

/-- Claim C8 amended: when the second positional argument is omitted the
output folder equals the input folder; whichever backend runs creates the
output folder (recursively, tolerating an existing one); and for each
converted input file whose base name holds at least one character other
than a dot, the output PDF's name is that base name with the extension
replaced by `.pdf`.  (A file whose entire name is the extension, such as
`.pptx`, instead gets `.pdf` appended — see the counterexample.) -/
theorem output_defaulting_and_naming (env : Env) (i o s : String)
    (hcom : env.comtypesAvailable = true)
    (hsoff : find_soffice env = some s) :
    (select_output_folder i [] = i) ∧
    (Effect.makedirs (env.abspath o) ∈ (convert_with_powerpoint_com env i o).2) ∧
    (Effect.makedirs (env.abspath o) ∈ (convert_with_libreoffice env i o).2) ∧
    (∀ b tail : List Char, b.any (fun c => c ≠ '.') = true → '.' ∉ tail →
      output_name (b ++ '.' :: tail) = b ++ str ".pdf") := by
  refine ⟨rfl, ?_, ?_, fun b tail hb ht => output_name_replaces_ext b tail hb ht⟩
  · cases hne : (discover env.entries).isEmpty <;>
      simp [convert_with_powerpoint_com, hcom, hne]
  · cases hne : (discover env.entries).isEmpty <;>
      simp [convert_with_libreoffice, hsoff, hne]

/-- Witness for C8 as amended: `deck.pptx` maps to `deck.pdf`, and the COM
backend creates the output folder. -/
theorem output_defaulting_and_naming_witness :
    output_name (str "deck" ++ '.' :: str "pptx") = str "deck" ++ str ".pdf" ∧
    Effect.makedirs (envBoth.abspath "out")
      ∈ (convert_with_powerpoint_com envBoth "slides" "out").2 :=
  ⟨(output_defaulting_and_naming envBoth "slides" "out"
      "/Applications/LibreOffice.app/Contents/MacOS/soffice" rfl (by decide)).2.2.2
      (str "deck") (str "pptx") (by decide) (by decide),
   (output_defaulting_and_naming envBoth "slides" "out"
      "/Applications/LibreOffice.app/Contents/MacOS/soffice" rfl (by decide)).2.1⟩

/-- Claim C3: the backend is selected once, by platform, and never
revisited: on win32 the COM backend is the one attempted — the trace
starts with its effects and no child process is ever launched — and a
missing comtypes bridge yields the installation hint and exit code 1; on
any other platform no COM application object is ever created, the
LibreOffice backend is the one attempted when there are files, and when it
reports failure (unavailable or invocation failed alike) both guidance
lines are printed and the process exits with code 1. -/
theorem dispatch_by_platform (env : Env) (i : String) (rest : List String)
    (hargv : env.argv = i :: rest) (hdir : env.isdir i = true) :
    (env.platform = "win32" →
      (∀ cmd t, Effect.run cmd t ∉ (main env).2) ∧
      (∃ tail, (main env).2 =
        (convert_with_powerpoint_com env i (select_output_folder i rest)).2
          ++ tail) ∧
      (env.comtypesAvailable = false →
        (main env).1 = 1 ∧
        Effect.print "comtypes not installed. Install with: pip install comtypes"
          ∈ (main env).2)) ∧
    (env.platform ≠ "win32" →
      (∀ p, Effect.createObject p ∉ (main env).2) ∧
      ((discover env.entries).isEmpty = false →
        (∃ tail, (main env).2 =
          (convert_with_libreoffice env i (select_output_folder i rest)).2
            ++ tail) ∧
        ((convert_with_libreoffice env i (select_output_folder i rest)).1 =
            Except.ok false →
          (main env).1 = 1 ∧
          Effect.print "LibreOffice not found. On macOS install with: brew install --cask libreoffice"
            ∈ (main env).2 ∧
          Effect.print "On Windows run this script with PowerPoint installed and comtypes: pip install comtypes"
            ∈ (main env).2))) := by
  constructor
  · intro hplat
    cases hc : env.comtypesAvailable with
    | false =>
      have hcc : convert_with_powerpoint_com env i (select_output_folder i rest)
          = (Except.error PyExc.importError, []) := by
        simp [convert_with_powerpoint_com, hc]
      have hmain : main env =
          (1, [Effect.print
            "comtypes not installed. Install with: pip install comtypes"]) := by
        simp [main, hargv, hdir, hplat, hcc]
      refine ⟨?_, ⟨[Effect.print
          "comtypes not installed. Install with: pip install comtypes"],
          by rw [hmain, hcc]; simp⟩, fun _ => ⟨by rw [hmain], by rw [hmain]; simp⟩⟩
      intro cmd t
      rw [hmain]
      simp
    | true =>
      rcases hcc : convert_with_powerpoint_com env i (select_output_folder i rest)
        with ⟨r, T⟩
      have hr : r = Except.ok () := by
        have h1 := com_ok_of_comtypes env i (select_output_folder i rest) hc
        rw [hcc] at h1
        exact h1
      subst hr
      have hmain : main env = (0, T) := by
        simp [main, hargv, hdir, hplat, hcc]
      refine ⟨?_, ⟨[], by rw [hmain]; simp⟩,
        fun hfalse => Bool.noConfusion hfalse⟩
      intro cmd t
      have hT := no_run_in_com env i (select_output_folder i rest) cmd t
      rw [hcc] at hT
      rw [hmain]
      exact hT
  · intro hplat
    cases hne : (discover env.entries).isEmpty with
    | true =>
      have hmain : main env =
          (0, [Effect.print ("No PPT/PPTX files found in " ++ env.abspath i)]) := by
        simp [main, hargv, hdir, hplat, hne]
      refine ⟨?_, fun h => Bool.noConfusion h⟩
      intro p
      rw [hmain]
      simp
    | false =>
      rcases hcc : convert_with_libreoffice env i (select_output_folder i rest)
        with ⟨r, T⟩
      have hTno : ∀ p, Effect.createObject p ∉ T := by
        intro p
        have h1 := no_createObject_in_libre env i (select_output_folder i rest) p
        rw [hcc] at h1
        exact h1
      cases r with
      | error e =>
        have hmain : main env = (1, T) := by
          simp [main, hargv, hdir, hplat, hne, hcc]
        refine ⟨?_, fun _ => ⟨⟨[], by rw [hmain]; simp⟩, fun hfail => ?_⟩⟩
        · intro p
          rw [hmain]
          exact hTno p
        · exact absurd hfail (by simp)
      | ok b =>
        cases b with
        | true =>
          have hmain : main env =
              (0, T ++ [Effect.print ("Converted " ++
                toString (discover env.entries).length ++
                " file(s) with LibreOffice. Output folder: " ++
                env.abspath (select_output_folder i rest))]) := by
            simp [main, hargv, hdir, hplat, hne, hcc]
          refine ⟨?_, fun _ => ⟨⟨[Effect.print ("Converted " ++
              toString (discover env.entries).length ++
              " file(s) with LibreOffice. Output folder: " ++
              env.abspath (select_output_folder i rest))], by rw [hmain]⟩,
            fun hfail => ?_⟩⟩
          · intro p
            rw [hmain]
            intro hmem
            rcases List.mem_append.mp hmem with h | h
            · exact hTno p h
            · simp at h
          · exact absurd hfail (by simp)
        | false =>
          have hmain : main env =
              (1, T ++
                [Effect.print
                  "LibreOffice not found. On macOS install with: brew install --cask libreoffice",
                 Effect.print
                  "On Windows run this script with PowerPoint installed and comtypes: pip install comtypes"]) := by
            simp [main, hargv, hdir, hplat, hne, hcc]
          refine ⟨?_, fun _ => ⟨⟨[Effect.print
              "LibreOffice not found. On macOS install with: brew install --cask libreoffice",
              Effect.print
              "On Windows run this script with PowerPoint installed and comtypes: pip install comtypes"],
              by rw [hmain]⟩,
            fun _ => ⟨by rw [hmain], by rw [hmain]; simp, by rw [hmain]; simp⟩⟩⟩
          intro p
          rw [hmain]
          intro hmem
          rcases List.mem_append.mp hmem with h | h
          · exact hTno p h
          · simp at h

/-- Witness for C3: a non-win32 run whose LibreOffice invocation times out
exits with code 1. -/
theorem dispatch_by_platform_witness :
    (main envTimeout).1 = 1 :=
  ((((dispatch_by_platform envTimeout "slides" [] rfl rfl).2 (by decide)).2
      (by decide)).2 (by rfl)).1

end ConvertAll
